import Mathlib

/-!
# Verification of the web-scraper extraction core

A shallow embedding of `web_scraper_app.py`: the URL-validation block, the
fetch/abort control flow, and the five extraction branches (Paragraphs,
Headings, Links, Tables, Images).  External libraries are modelled
explicitly:

* `urllib.parse.urlparse` — only the `scheme`/`netloc` components the app
  reads are modelled, following CPython's `urlsplit` algorithm;
* Python `str` methods (`strip`, `startswith`, `endswith`, slicing, `len`)
  — modelled in the `Py` namespace with Python semantics;
* BeautifulSoup — the parsed document is modelled as the flat list of
  elements (in document order) that `find_all` traverses, each element
  carrying its tag, attributes and `get_text()` result;
* `pandas.read_html` — an external structural table parse, modelled as an
  oracle field on the element (`some grid` on success, `none` when the call
  raises, which the app catches).
-/

namespace Scraper

/-! ## Python string primitives -/

namespace Py

/-- Python `str.strip()` whitespace set (ASCII part). -/
def isSpace (c : Char) : Bool :=
  c = ' ' || c = '\t' || c = '\n' || c = '\r' || c = '\x0b' || c = '\x0c'

/-- Python `s.strip()`. -/
def strip (s : String) : String :=
  String.mk (((s.data.dropWhile isSpace).reverse.dropWhile isSpace).reverse)

/-- Python `s.startswith(p)`. -/
def startswith (s p : String) : Bool :=
  p.data.isPrefixOf s.data

/-- Python `s.endswith(p)`. -/
def endswith (s p : String) : Bool :=
  p.data.isSuffixOf s.data

/-- Python `len(s)` (code points). -/
def strlen (s : String) : Nat := s.data.length

/-- Python `s[:n]`. -/
def sliceTo (s : String) (n : Nat) : String := String.mk (s.data.take n)

end Py

/-! ## Model of `urllib.parse.urlparse` (scheme and netloc components) -/

/-- Valid characters of a URL scheme after the first (CPython `scheme_chars`). -/
def isSchemeChar (c : Char) : Bool :=
  c.isAlphanum || c = '+' || c = '-' || c = '.'

/-- Split a character list at the first `:`; `none` when there is no colon. -/
def splitAtColon : List Char → Option (List Char × List Char)
  | [] => none
  | c :: rest =>
    if c = ':' then some ([], rest)
    else match splitAtColon rest with
      | some (pre, post) => some (c :: pre, post)
      | none => none

/-- CPython `urlsplit` scheme recognition: a non-empty alpha-initial run of
scheme characters before the first colon; the scheme is lowercased and
removed, otherwise the input is left intact. -/
def splitScheme (cs : List Char) : List Char × List Char :=
  match splitAtColon cs with
  | some (pre, post) =>
    match pre with
    | [] => ([], cs)
    | c0 :: _ =>
      if c0.isAlpha && pre.all isSchemeChar then (pre.map Char.toLower, post)
      else ([], cs)
  | none => ([], cs)

/-- After scheme removal, `netloc` is what follows a leading `//`, up to the
first `/`, `?` or `#`. -/
def netlocChars : List Char → List Char
  | '/' :: '/' :: rest => rest.takeWhile (fun c => c ≠ '/' && c ≠ '?' && c ≠ '#')
  | _ => []

/-- `urlparse(s).scheme`. -/
def urlparseScheme (s : String) : String :=
  String.mk (splitScheme s.data).1

/-- `urlparse(s).netloc`. -/
def urlparseNetloc (s : String) : String :=
  String.mk (netlocChars (splitScheme s.data).2)

/-! ## Parsed-document model -/

/-- One parsed HTML element as the app reads it: tag name, attribute list,
`get_text()` result, and — for `table` elements — the outcome of the external
`pd.read_html(str(table))[0]` call (`none` when that call raises). -/
structure Element where
  tag : String
  attrs : List (String × String)
  text : String
  grid : Option (List (List String)) := none
  deriving Repr, DecidableEq

/-- The parsed document: elements in document order, as `find_all` yields
them. -/
abbrev Document := List Element

/-- `element.get(name)` — first attribute with the given name. -/
def getAttr? (e : Element) (name : String) : Option String :=
  (e.attrs.find? (fun a => a.1 = name)).map (fun a => a.2)

/-- `element.get(name, default)`. -/
def getAttrD (e : Element) (name default : String) : String :=
  (getAttr? e name).getD default

/-- `soup.find_all(tag)`. -/
def findAll (doc : Document) (tag : String) : List Element :=
  doc.filter (fun e => e.tag = tag)

/-- `soup.find_all([t1, …, tn])`. -/
def findAllTags (doc : Document) (tags : List String) : List Element :=
  doc.filter (fun e => tags.contains e.tag)

/-- `soup.find_all('a', href=True)`. -/
def findAllAnchorsWithHref (doc : Document) : List Element :=
  doc.filter (fun e => e.tag = "a" && (e.attrs.any (fun a => a.1 = "href")))

/-! ## Extraction branches -/

/-- Paragraphs branch, line 117:
`[p.get_text().strip() for p in soup.find_all('p') if p.get_text().strip()]`. -/
def paragraphsList (doc : Document) : List String :=
  ((findAll doc "p").map (fun p => Py.strip p.text)).filter (fun s => s ≠ "")

/-- The paragraphs actually rendered: `paragraphs[:50]` (line 121). -/
def extractParagraphs (doc : Document) : List String :=
  (paragraphsList doc).take 50

/-- One rendered heading: `level = int(heading.name[1])`, text stripped. -/
structure Heading where
  level : Nat
  text : String
  deriving Repr, DecidableEq

/-- `int(heading.name[1])` — the digit at index 1 of the tag name. -/
def headingLevel (tag : String) : Nat :=
  match tag.data with
  | _ :: c :: _ => c.toNat - '0'.toNat
  | _ => 0

/-- The six heading tags passed to `find_all` (line 128). -/
def headingTags : List String := ["h1", "h2", "h3", "h4", "h5", "h6"]

/-- Headings branch, lines 128–134. -/
def extractHeadings (doc : Document) : List Heading :=
  (findAllTags doc headingTags).map
    (fun h => ⟨headingLevel h.tag, Py.strip h.text⟩)

inductive LinkKind
  | internal
  | external
  deriving Repr, DecidableEq

/-- One row of the links table: `{"URL": href, "Text": …, "Type": …}`. -/
structure LinkEntry where
  url : String
  text : String
  kind : LinkKind
  deriving Repr, DecidableEq

/-- `link['href']` for an anchor found with `href=True`. -/
def hrefOf (e : Element) : String := getAttrD e "href" ""

/-- The loop body's internal arm (lines 144–147): an anchor joins
`internal_links` exactly when `href.startswith('http')` and
`urlparse(href).netloc == urlparse(url).netloc`. -/
def internalEntry (url : String) (link : Element) : Option LinkEntry :=
  if Py.startswith (hrefOf link) "http" = true
      ∧ urlparseNetloc (hrefOf link) = urlparseNetloc url
  then some ⟨hrefOf link, Py.strip link.text, LinkKind.internal⟩
  else none

/-- The loop body's external arm (lines 144–149). -/
def externalEntry (url : String) (link : Element) : Option LinkEntry :=
  if Py.startswith (hrefOf link) "http" = true
      ∧ ¬ urlparseNetloc (hrefOf link) = urlparseNetloc url
  then some ⟨hrefOf link, Py.strip link.text, LinkKind.external⟩
  else none

/-- Links branch, internal bucket, in encounter order. -/
def internalLinks (doc : Document) (url : String) : List LinkEntry :=
  (findAllAnchorsWithHref doc).filterMap (internalEntry url)

/-- Links branch, external bucket, in encounter order. -/
def externalLinks (doc : Document) (url : String) : List LinkEntry :=
  (findAllAnchorsWithHref doc).filterMap (externalEntry url)

/-- One of the up-to-3 table slots: a parsed grid, or the
"Could not parse this table" marker from the `except` arm (line 181). -/
inductive TableSlot
  | parsed (grid : List (List String))
  | failed
  deriving Repr, DecidableEq

/-- Tables branch, lines 171–182: `tables[:3]`, each slot rendered from
`pd.read_html` or degraded to the failure marker by the bare `except`. -/
def extractTables (doc : Document) : List TableSlot :=
  ((findAll doc "table").take 3).map (fun t =>
    match t.grid with
    | some g => TableSlot.parsed g
    | none => TableSlot.failed)

/-- `img.get('src', '')` (line 193). -/
def srcOf (e : Element) : String := getAttrD e "src" ""

/-- `img.get('alt', 'No alt text')` (line 194). -/
def altOf (e : Element) : String := getAttrD e "alt" "No alt text"

/-- Relative-URL handling, lines 196–201:
if `src` does not start with `"http"`, an absolute path is joined to
scheme+netloc, and a bare relative path becomes
`f"{url}/{'/' if not url.endswith('/') else ''}{src}"`. -/
def resolveSrc (url src : String) : String :=
  if ¬ Py.startswith src "http" then
    if Py.startswith src "/" then
      urlparseScheme url ++ "://" ++ urlparseNetloc url ++ src
    else
      url ++ "/" ++ (if ¬ Py.endswith url "/" then "/" else "") ++ src
  else src

/-- One rendered image: resolved URL and the caption
`alt[:50] + "..." if len(alt) > 50 else alt` (line 202). -/
structure ImageEntry where
  resolvedUrl : String
  caption : String
  deriving Repr, DecidableEq

/-- The loop body for one image (lines 193–202): skip on falsy `src`,
otherwise render the resolved URL with the caption
`alt[:50] + "..." if len(alt) > 50 else alt`. -/
def imageEntry (url : String) (img : Element) : Option ImageEntry :=
  if srcOf img ≠ "" then
    some ⟨resolveSrc url (srcOf img),
          if Py.strlen (altOf img) > 50 then Py.sliceTo (altOf img) 50 ++ "..."
          else altOf img⟩
  else none

/-- Images branch, lines 187–202: `images[:9]` is taken FIRST, then inside
the loop entries with falsy `src` are skipped. -/
def extractImages (doc : Document) (url : String) : List ImageEntry :=
  ((findAll doc "img").take 9).filterMap (imageEntry url)

/-! ## Whole-request pipeline -/

inductive Category
  | paragraphs
  | headings
  | links
  | tables
  | images
  deriving Repr, DecidableEq

/-- The typed result of one extraction. -/
inductive Extraction
  | paragraphs (ps : List String)
  | headings (hs : List Heading)
  | links (internal external : List LinkEntry)
  | tables (ts : List TableSlot)
  | images (imgs : List ImageEntry)
  deriving Repr, DecidableEq

/-- Dispatch on `extraction_choice` (lines 116–204). -/
def extract (doc : Document) (url : String) : Category → Extraction
  | Category.paragraphs => Extraction.paragraphs (extractParagraphs doc)
  | Category.headings => Extraction.headings (extractHeadings doc)
  | Category.links => Extraction.links (internalLinks doc url) (externalLinks doc url)
  | Category.tables => Extraction.tables (extractTables doc)
  | Category.images => Extraction.images (extractImages doc url)

/-- URL validation, lines 83–84: `all([result.scheme, result.netloc])` —
both components merely non-empty. -/
def validUrl (url : String) : Bool :=
  urlparseScheme url ≠ "" && urlparseNetloc url ≠ ""

/-- Outcome of one button press. -/
inductive AppResult
  | emptyUrlWarning
  | invalidUrl
  | fetchFailure (reason : String)
  | success (out : Extraction)
  deriving Repr, DecidableEq

/-- The request pipeline, lines 77–204: empty-URL warning, then validation
(`st.stop()` on failure), then the fetch (its `RequestException` handler
stops with the error), then parse+extract.  The fetch collaborator is a
parameter returning either the parsed document or a failure reason. -/
def runApp (url : String) (fetch : String → Except String Document)
    (choice : Category) : AppResult :=
  if url = "" then AppResult.emptyUrlWarning
  else if ¬ validUrl url then AppResult.invalidUrl
  else
    match fetch url with
    | Except.error e => AppResult.fetchFailure e
    | Except.ok doc => AppResult.success (extract doc url choice)

/-! ## Helper lemmas -/

/-- A `filterMap` that keeps every element of the list has the list's
length. -/
theorem length_filterMap_of_isSome {α β : Type} (f : α → Option β) :
    ∀ l : List α, (∀ a ∈ l, (f a).isSome) → (l.filterMap f).length = l.length
  | [], _ => rfl
  | a :: t, h => by
    cases hfa : f a with
    | none =>
      have := h a (List.mem_cons_self a t)
      rw [hfa] at this
      simp at this
    | some b =>
      have ih := length_filterMap_of_isSome f t
        (fun x hx => h x (List.mem_cons_of_mem a hx))
      simp [List.filterMap_cons, hfa, ih]

/-- Mapping `h` over a `filterMap` yields a sublist of mapping `g` over the
original list, provided `h` of each kept value is `g` of its source. -/
theorem map_filterMap_sublist_map {α β γ : Type} (f : α → Option β) (g : α → γ)
    (h : β → γ) (H : ∀ a b, f a = some b → h b = g a) :
    ∀ l : List α, ((l.filterMap f).map h).Sublist (l.map g)
  | [] => List.Sublist.refl []
  | a :: t => by
    cases hfa : f a with
    | none =>
      simpa [List.filterMap_cons, hfa] using
        List.Sublist.cons (g a) (map_filterMap_sublist_map f g h H t)
    | some b =>
      have hb : h b = g a := H a b hfa
      simpa [List.filterMap_cons, hfa, hb] using
        List.Sublist.cons₂ (g a) (map_filterMap_sublist_map f g h H t)

/-- Everything `internalEntry` emits: an `http`-prefixed URL whose netloc
equals the source's, tagged internal, copied verbatim from the href. -/
theorem internalEntry_some {url : String} {e : Element} {l : LinkEntry}
    (h : internalEntry url e = some l) :
    Py.startswith l.url "http" = true
      ∧ urlparseNetloc l.url = urlparseNetloc url
      ∧ l.kind = LinkKind.internal ∧ l.url = hrefOf e := by
  unfold internalEntry at h
  split at h
  · rename_i hc
    cases h
    exact ⟨hc.1, hc.2, rfl, rfl⟩
  · cases h

/-- Everything `externalEntry` emits: an `http`-prefixed URL whose netloc
differs from the source's, tagged external, copied verbatim from the href. -/
theorem externalEntry_some {url : String} {e : Element} {l : LinkEntry}
    (h : externalEntry url e = some l) :
    Py.startswith l.url "http" = true
      ∧ ¬ urlparseNetloc l.url = urlparseNetloc url
      ∧ l.kind = LinkKind.external ∧ l.url = hrefOf e := by
  unfold externalEntry at h
  split at h
  · rename_i hc
    cases h
    exact ⟨hc.1, hc.2, rfl, rfl⟩
  · cases h

/-- An href that does not start with `"http"` is routed to neither bucket. -/
theorem entry_none_of_not_http {url : String} {e : Element}
    (h : ¬ Py.startswith (hrefOf e) "http" = true) :
    internalEntry url e = none ∧ externalEntry url e = none := by
  constructor
  · unfold internalEntry
    exact if_neg (fun hc => h hc.1)
  · unfold externalEntry
    exact if_neg (fun hc => h hc.1)

/-- Each anchor whose href starts with `"http"` lands in exactly one bucket:
bucket sizes add up to the number of `http`-prefixed anchors. -/
theorem links_partition_count (url : String) :
    ∀ l : List Element,
      (l.filterMap (internalEntry url)).length
          + (l.filterMap (externalEntry url)).length
        = (l.filter (fun e => Py.startswith (hrefOf e) "http")).length
  | [] => rfl
  | e :: t => by
    have ih := links_partition_count url t
    by_cases hp : Py.startswith (hrefOf e) "http" = true
    · by_cases hn : urlparseNetloc (hrefOf e) = urlparseNetloc url
      · simp [List.filterMap_cons, List.filter_cons, internalEntry, externalEntry,
          hp, hn, ih, Nat.succ_add]
      · simp only [List.filterMap_cons, List.filter_cons, internalEntry, externalEntry]
        rw [if_neg (fun hc => hn hc.2), if_pos ⟨hp, hn⟩]
        simp [hp, ← ih]
        omega
    · have hp' : Py.startswith (hrefOf e) "http" = false := by
        cases hb : Py.startswith (hrefOf e) "http"
        · rfl
        · exact absurd hb hp
      simp [List.filterMap_cons, List.filter_cons, internalEntry, externalEntry,
        hp, hp', ih]

/-- An image element with a non-empty `src` is always kept. -/
theorem imageEntry_isSome {url : String} {img : Element}
    (h : srcOf img ≠ "") : (imageEntry url img).isSome := by
  unfold imageEntry
  rw [if_pos h]
  rfl

/-- The URL a kept image entry carries is the resolved src of its element. -/
theorem imageEntry_some_resolvedUrl {url : String} {img : Element}
    {entry : ImageEntry} (h : imageEntry url img = some entry) :
    entry.resolvedUrl = resolveSrc url (srcOf img) := by
  unfold imageEntry at h
  split at h
  · cases h
    rfl
  · cases h

/-! ## Claim theorems -/

/-- C1: the claim states that a bare relative `src` is joined to the source
URL by a single separating `/`, so that `src="b.png"` under
`https://ex.com/page` resolves to `https://ex.com/page/b.png`.  The code's
f-string `f"{url}/{'/' if not url.endswith('/') else ''}{src}"` contains a
literal `/` AND conditionally adds another, so the code actually produces
`https://ex.com/page//b.png` — the conditional shows a single separator was
intended, making this a slip in the code. -/
theorem c1_bare_relative_join_doubles_slash :
    resolveSrc "https://ex.com/page" "b.png" = "https://ex.com/page//b.png"
    ∧ resolveSrc "https://ex.com/page" "b.png" ≠ "https://ex.com/page/b.png"
    ∧ resolveSrc "https://ex.com/page/" "b.png" = "https://ex.com/page//b.png"
    ∧ extractImages [⟨"img", [("src", "b.png")], "", none⟩] "https://ex.com/page"
        = [⟨"https://ex.com/page//b.png", "No alt text"⟩] := by
  refine ⟨by decide, by decide, by decide, by decide⟩

/-- C9: extraction is deterministic — the extraction core embeds as a total
pure function of `(document, source url, category)`, so identical inputs
give identical outputs. -/
theorem c9_extract_deterministic :
    ∀ (d₁ d₂ : Document) (u₁ u₂ : String) (c₁ c₂ : Category),
      d₁ = d₂ → u₁ = u₂ → c₁ = c₂ → extract d₁ u₁ c₁ = extract d₂ u₂ c₂ := by
  intro d₁ d₂ u₁ u₂ c₁ c₂ hd hu hc
  rw [hd, hu, hc]

/-- Closed instance of `c9_extract_deterministic` at a concrete document,
URL and category. -/
theorem c9_extract_deterministic_witness :
    extract [⟨"p", [], " hi ", none⟩] "https://ex.com" Category.paragraphs
      = extract [⟨"p", [], " hi ", none⟩] "https://ex.com" Category.paragraphs :=
  c9_extract_deterministic _ _ _ _ _ _ rfl rfl rfl

/-- C10: the "absolute" test in both the Links branch and the Images branch
is the literal prefix test `startswith("http")`: any `http`-prefixed string
(even `httpfoo/bar`) counts as absolute and is used as-is, while every other
string — including genuine absolute schemes such as `ftp://` — is treated
as non-absolute (excluded from link buckets, run through relative-src
joining). -/
theorem c10_absolute_test_is_startswith_http :
    (∀ url src : String, Py.startswith src "http" = true → resolveSrc url src = src)
    ∧ (∀ (url : String) (e : Element), ¬ Py.startswith (hrefOf e) "http" = true →
        internalEntry url e = none ∧ externalEntry url e = none)
    ∧ Py.startswith "httpfoo/bar" "http" = true
    ∧ resolveSrc "https://ex.com/page" "httpfoo/bar" = "httpfoo/bar"
    ∧ Py.startswith "ftp://ex.com/x" "http" = false
    ∧ resolveSrc "https://ex.com/page" "ftp://a.com/x.png"
        = "https://ex.com/page//ftp://a.com/x.png"
    ∧ externalLinks [⟨"a", [("href", "httpfoo/bar")], "t", none⟩] "https://ex.com/page"
        = [⟨"httpfoo/bar", "t", LinkKind.external⟩]
    ∧ internalLinks [⟨"a", [("href", "ftp://ex.com/x")], "t", none⟩] "https://ex.com/page" = []
    ∧ externalLinks [⟨"a", [("href", "ftp://ex.com/x")], "t", none⟩] "https://ex.com/page" = [] := by
  refine ⟨?_, ?_, by decide, by decide, by decide, by decide, by decide, by decide, by decide⟩
  · intro url src h
    unfold resolveSrc
    rw [if_neg (fun hc => hc h)]
  · intro url e h
    exact entry_none_of_not_http h

/-- Closed instance of `c10_absolute_test_is_startswith_http`: an
`http`-prefixed src is used as-is, and a relative href is bucketed
nowhere. -/
theorem c10_absolute_test_witness :
    resolveSrc "https://ex.com" "http://a.com/i.png" = "http://a.com/i.png"
    ∧ internalEntry "https://ex.com" ⟨"a", [("href", "/rel")], "t", none⟩ = none :=
  ⟨c10_absolute_test_is_startswith_http.1 "https://ex.com" "http://a.com/i.png" (by decide),
   (c10_absolute_test_is_startswith_http.2.1 "https://ex.com"
      ⟨"a", [("href", "/rel")], "t", none⟩ (by decide)).1⟩

/-- Ten `img` elements: the first with empty `src`, then nine with
non-empty `src`. -/
def tenImagesDoc : Document :=
  [⟨"img", [("src", "")], "", none⟩,
   ⟨"img", [("src", "a1.png")], "", none⟩,
   ⟨"img", [("src", "a2.png")], "", none⟩,
   ⟨"img", [("src", "a3.png")], "", none⟩,
   ⟨"img", [("src", "a4.png")], "", none⟩,
   ⟨"img", [("src", "a5.png")], "", none⟩,
   ⟨"img", [("src", "a6.png")], "", none⟩,
   ⟨"img", [("src", "a7.png")], "", none⟩,
   ⟨"img", [("src", "a8.png")], "", none⟩,
   ⟨"img", [("src", "a9.png")], "", none⟩]

/-- C2, counterexample: the claim says empty-`src` images are skipped FIRST
and the cap of 9 applied afterwards, so a document with at least 9
non-empty-`src` images yields exactly 9 entries.  The code takes
`images[:9]` first and only then skips empty `src` inside the loop: on a
document whose 10 images are one empty-`src` followed by nine
non-empty-`src`, it renders only 8 entries. -/
theorem c2_cap_applied_before_filter_cex :
    ((findAll tenImagesDoc "img").filter (fun e => srcOf e ≠ "")).length = 9
    ∧ (extractImages tenImagesDoc "https://ex.com").length = 8 := by
  refine ⟨by decide, by decide⟩

/-- C2, amended: the Images extraction first caps the `img` sequence at the
first 9 elements, and only then skips the empty-`src` ones among them,
preserving document order; the output never exceeds 9 entries, and it has
exactly `min 9 (number of imgs)` entries whenever all of the first 9 `img`
elements carry a non-empty `src`. -/
theorem c2_images_cap_then_filter :
    ∀ (doc : Document) (url : String),
      (extractImages doc url).length ≤ 9
      ∧ ((∀ e ∈ (findAll doc "img").take 9, srcOf e ≠ "") →
          (extractImages doc url).length = min 9 (findAll doc "img").length)
      ∧ ((extractImages doc url).map ImageEntry.resolvedUrl).Sublist
          (((findAll doc "img").take 9).map (fun e => resolveSrc url (srcOf e))) := by
  intro doc url
  refine ⟨?_, ?_, ?_⟩
  · calc (extractImages doc url).length
        ≤ ((findAll doc "img").take 9).length :=
          List.length_filterMap_le _ _
      _ ≤ 9 := by rw [List.length_take]; exact Nat.min_le_left _ _
  · intro h
    unfold extractImages
    rw [length_filterMap_of_isSome (imageEntry url) _
      (fun a ha => imageEntry_isSome (h a ha))]
    exact List.length_take 9 _
  · exact map_filterMap_sublist_map (imageEntry url)
      (fun e => resolveSrc url (srcOf e)) ImageEntry.resolvedUrl
      (fun a b hab => imageEntry_some_resolvedUrl hab) _

/-- Closed instance of `c2_images_cap_then_filter`: one good image, one
entry. -/
theorem c2_images_cap_then_filter_witness :
    (extractImages [⟨"img", [("src", "x.png")], "", none⟩] "https://ex.com").length
      = min 9 (findAll [⟨"img", [("src", "x.png")], "", none⟩] "img").length :=
  (c2_images_cap_then_filter [⟨"img", [("src", "x.png")], "", none⟩]
      "https://ex.com").2.1 (by decide)

/-- C3: an anchor with an href not starting with the absolute marker lands
in neither bucket (every bucketed entry is `http`-prefixed); a bucketed
entry is Internal exactly when its parsed netloc is string-equal to the
source URL's netloc and External otherwise; every `http`-prefixed anchor
lands in exactly one bucket (the counts add up); and each bucket preserves
encounter order (its URLs form a sublist of the anchors' hrefs). -/
theorem c3_link_classification :
    ∀ (doc : Document) (url : String),
      (∀ l ∈ internalLinks doc url,
          Py.startswith l.url "http" = true
          ∧ urlparseNetloc l.url = urlparseNetloc url
          ∧ l.kind = LinkKind.internal)
      ∧ (∀ l ∈ externalLinks doc url,
          Py.startswith l.url "http" = true
          ∧ ¬ urlparseNetloc l.url = urlparseNetloc url
          ∧ l.kind = LinkKind.external)
      ∧ (internalLinks doc url).length + (externalLinks doc url).length
          = ((findAllAnchorsWithHref doc).filter
              (fun e => Py.startswith (hrefOf e) "http")).length
      ∧ ((internalLinks doc url).map LinkEntry.url).Sublist
          ((findAllAnchorsWithHref doc).map hrefOf)
      ∧ ((externalLinks doc url).map LinkEntry.url).Sublist
          ((findAllAnchorsWithHref doc).map hrefOf) := by
  intro doc url
  refine ⟨?_, ?_, links_partition_count url _, ?_, ?_⟩
  · intro l hl
    obtain ⟨e, _, hfe⟩ := List.mem_filterMap.mp hl
    obtain ⟨h1, h2, h3, _⟩ := internalEntry_some hfe
    exact ⟨h1, h2, h3⟩
  · intro l hl
    obtain ⟨e, _, hfe⟩ := List.mem_filterMap.mp hl
    obtain ⟨h1, h2, h3, _⟩ := externalEntry_some hfe
    exact ⟨h1, h2, h3⟩
  · exact map_filterMap_sublist_map (internalEntry url) hrefOf LinkEntry.url
      (fun a b hab => (internalEntry_some hab).2.2.2) _
  · exact map_filterMap_sublist_map (externalEntry url) hrefOf LinkEntry.url
      (fun a b hab => (externalEntry_some hab).2.2.2) _

/-- Closed instance of `c3_link_classification`: the entry produced for a
same-host absolute anchor is `http`-prefixed, matches the source netloc and
is tagged internal. -/
theorem c3_link_classification_witness :
    Py.startswith (LinkEntry.url ⟨"https://ex.com/a", "t", LinkKind.internal⟩) "http" = true
    ∧ urlparseNetloc (LinkEntry.url ⟨"https://ex.com/a", "t", LinkKind.internal⟩)
        = urlparseNetloc "https://ex.com/page"
    ∧ LinkEntry.kind ⟨"https://ex.com/a", "t", LinkKind.internal⟩ = LinkKind.internal :=
  (c3_link_classification [⟨"a", [("href", "https://ex.com/a")], "t", none⟩]
      "https://ex.com/page").1 ⟨"https://ex.com/a", "t", LinkKind.internal⟩ (by decide)

/-- C4, counterexample: the claim says any URL whose scheme is neither
`http` nor `https` is rejected before any fetch.  The code's check
`all([result.scheme, result.netloc])` only requires both components to be
non-empty, so `ftp://host/x` passes validation and the fetch is attempted
(the pipeline's outcome reflects the fetch collaborator's answer). -/
theorem c4_ftp_scheme_passes_validation_cex :
    validUrl "ftp://host/x" = true
    ∧ runApp "ftp://host/x" (fun _ => Except.error "connection refused")
        Category.paragraphs
      = AppResult.fetchFailure "connection refused" := by
  refine ⟨by decide, by decide⟩

/-- C4, amended: validation only requires `urlparse` to yield a non-empty
scheme and a non-empty netloc — the scheme is NOT restricted to
`http`/`https`.  Any URL failing that check is stopped before the fetch and
before extraction (the outcome does not depend on the fetch collaborator or
the chosen category): `""` is caught even earlier by the empty-input
warning, and `"notaurl"` yields the invalid-URL error. -/
theorem c4_validation_checks_nonempty_components :
    ∀ (url : String) (f g : String → Except String Document) (c c' : Category),
      (validUrl url = true ↔ (urlparseScheme url ≠ "" ∧ urlparseNetloc url ≠ ""))
      ∧ (url ≠ "" → validUrl url = false → runApp url f c = AppResult.invalidUrl)
      ∧ (validUrl url = false → runApp url f c = runApp url g c')
      ∧ runApp "" f c = AppResult.emptyUrlWarning
      ∧ runApp "notaurl" f c = AppResult.invalidUrl := by
  intro url f g c c'
  refine ⟨?_, ?_, ?_, rfl, ?_⟩
  · simp [validUrl]
  · intro h1 h2
    unfold runApp
    rw [if_neg h1, if_pos (by simp [h2])]
  · intro h2
    by_cases h1 : url = ""
    · subst h1
      rfl
    · unfold runApp
      rw [if_neg h1, if_neg h1, if_pos (by simp [h2]), if_pos (by simp [h2])]
  · unfold runApp
    rw [if_neg (by decide), if_pos (by decide)]

/-- Closed instance of `c4_validation_checks_nonempty_components` at
`"notaurl"`. -/
theorem c4_validation_witness :
    runApp "notaurl" (fun _ => Except.ok []) Category.paragraphs
      = AppResult.invalidUrl :=
  (c4_validation_checks_nonempty_components "notaurl" (fun _ => Except.ok [])
      (fun _ => Except.ok []) Category.paragraphs Category.paragraphs).2.1
    (by decide) (by decide)

/-- C5: the Tables branch considers exactly the first `min 3 n` of the `n`
table elements in document order, and each considered table maps to its own
slot — a parsed grid when the external parse succeeded, the failure marker
when it raised — so a parse failure neither removes the slot nor aborts
the later tables. -/
theorem c5_tables_three_slots :
    ∀ doc : Document,
      (extractTables doc).length = min 3 (findAll doc "table").length
      ∧ (∀ (i : Nat) (t : Element), ((findAll doc "table").take 3)[i]? = some t →
          (extractTables doc)[i]? = some (match t.grid with
            | some g => TableSlot.parsed g
            | none => TableSlot.failed)) := by
  intro doc
  constructor
  · unfold extractTables
    rw [List.length_map, List.length_take]
  · intro i t h
    unfold extractTables
    rw [List.getElem?_map _ _ i, h]
    rfl

/-- Five tables, the second of which the external parse rejects. -/
def fiveTablesDoc : Document :=
  [⟨"table", [], "", some [["a"]]⟩,
   ⟨"table", [], "", none⟩,
   ⟨"table", [], "", some [["b"]]⟩,
   ⟨"table", [], "", some [["c"]]⟩,
   ⟨"table", [], "", some [["d"]]⟩]

/-- Closed instance of `c5_tables_three_slots`: with 5 tables, 3 slots, and
the failing second table still occupies its slot. -/
theorem c5_tables_three_slots_witness :
    (extractTables fiveTablesDoc).length = min 3 (findAll fiveTablesDoc "table").length
    ∧ (extractTables fiveTablesDoc)[1]? = some TableSlot.failed :=
  ⟨(c5_tables_three_slots fiveTablesDoc).1,
   (c5_tables_three_slots fiveTablesDoc).2 1 ⟨"table", [], "", none⟩ (by decide)⟩

/-- C6: the Paragraphs extraction yields at most 50 entries; every entry is
the stripped text of some `p` element and is non-empty; and entries appear
in document order (the output is a sublist of the stripped texts of the `p`
elements in order). -/
theorem c6_paragraphs_capped_trimmed_ordered :
    ∀ doc : Document,
      (extractParagraphs doc).length ≤ 50
      ∧ (∀ p ∈ extractParagraphs doc,
          p ≠ "" ∧ ∃ e ∈ findAll doc "p", p = Py.strip e.text)
      ∧ (extractParagraphs doc).Sublist
          ((findAll doc "p").map (fun e => Py.strip e.text)) := by
  intro doc
  refine ⟨?_, ?_, ?_⟩
  · unfold extractParagraphs
    rw [List.length_take]
    exact Nat.min_le_left _ _
  · intro p hp
    have hp' : p ∈ paragraphsList doc := List.mem_of_mem_take hp
    rw [paragraphsList, List.mem_filter] at hp'
    refine ⟨by simpa using hp'.2, ?_⟩
    obtain ⟨e, he, hpe⟩ := List.mem_map.mp hp'.1
    exact ⟨e, he, hpe.symm⟩
  · exact (List.take_sublist _ _).trans (List.filter_sublist _)

/-- Closed instance of `c6_paragraphs_capped_trimmed_ordered` at a one-`p`
document. -/
theorem c6_paragraphs_witness :
    "hi" ≠ "" ∧ ∃ e ∈ findAll [⟨"p", [], " hi ", none⟩] "p", "hi" = Py.strip e.text :=
  (c6_paragraphs_capped_trimmed_ordered [⟨"p", [], " hi ", none⟩]).2.1 "hi" (by decide)

/-- C7: the Headings extraction yields exactly one entry per `h1`–`h6`
element (no truncation, no empty-filtering), positionally in document
order, each with level the numeric suffix of its tag name and text the
stripped inner text. -/
theorem c7_headings_one_per_tag :
    ∀ doc : Document,
      (extractHeadings doc).length = (findAllTags doc headingTags).length
      ∧ (∀ (i : Nat) (e : Element), (findAllTags doc headingTags)[i]? = some e →
          ∃ k : Nat, 1 ≤ k ∧ k ≤ 6 ∧ e.tag = "h" ++ toString k
            ∧ (extractHeadings doc)[i]? = some ⟨k, Py.strip e.text⟩) := by
  intro doc
  constructor
  · unfold extractHeadings
    exact List.length_map _ _
  · intro i e h
    have hmem : e ∈ findAllTags doc headingTags := List.getElem?_mem h
    have htag : e.tag = "h1" ∨ e.tag = "h2" ∨ e.tag = "h3" ∨ e.tag = "h4"
        ∨ e.tag = "h5" ∨ e.tag = "h6" := by
      rw [findAllTags, List.mem_filter] at hmem
      have := hmem.2
      simp [headingTags] at this
      exact this
    have hget : (extractHeadings doc)[i]? = some ⟨headingLevel e.tag, Py.strip e.text⟩ := by
      unfold extractHeadings
      rw [List.getElem?_map _ _ i, h]
      rfl
    rcases htag with ht | ht | ht | ht | ht | ht
    · exact ⟨1, by decide, by decide, by rw [ht]; decide, by rw [hget, ht]; rfl⟩
    · exact ⟨2, by decide, by decide, by rw [ht]; decide, by rw [hget, ht]; rfl⟩
    · exact ⟨3, by decide, by decide, by rw [ht]; decide, by rw [hget, ht]; rfl⟩
    · exact ⟨4, by decide, by decide, by rw [ht]; decide, by rw [hget, ht]; rfl⟩
    · exact ⟨5, by decide, by decide, by rw [ht]; decide, by rw [hget, ht]; rfl⟩
    · exact ⟨6, by decide, by decide, by rw [ht]; decide, by rw [hget, ht]; rfl⟩

/-- Closed instance of `c7_headings_one_per_tag` at a one-`h2` document. -/
theorem c7_headings_witness :
    ∃ k : Nat, 1 ≤ k ∧ k ≤ 6
      ∧ Element.tag ⟨"h2", [], " T ", none⟩ = "h" ++ toString k
      ∧ (extractHeadings [⟨"h2", [], " T ", none⟩])[0]?
          = some ⟨k, Py.strip (Element.text ⟨"h2", [], " T ", none⟩)⟩ :=
  (c7_headings_one_per_tag [⟨"h2", [], " T ", none⟩]).2 0
    ⟨"h2", [], " T ", none⟩ (by decide)

/-- C8: when the URL passes validation but the fetch collaborator fails
(network error, timeout or non-success status — all surfaced as
`RequestException`), the pipeline stops with `FetchFailure` carrying that
reason; no extraction is produced and the outcome does not depend on the
selected category. -/
theorem c8_fetch_failure_aborts :
    ∀ (url : String) (f : String → Except String Document) (e : String)
      (c c' : Category),
      validUrl url = true → f url = Except.error e →
      runApp url f c = AppResult.fetchFailure e
      ∧ runApp url f c = runApp url f c'
      ∧ ∀ out : Extraction, runApp url f c ≠ AppResult.success out := by
  intro url f e c c' hv hf
  have hne : url ≠ "" := by
    intro h
    rw [h] at hv
    exact absurd hv (by decide)
  have hrun : ∀ c'' : Category, runApp url f c'' = AppResult.fetchFailure e := by
    intro c''
    unfold runApp
    rw [if_neg hne, if_neg (by simp [hv]), hf]
  refine ⟨hrun c, (hrun c).trans (hrun c').symm, ?_⟩
  intro out hout
  rw [hrun c] at hout
  cases hout

/-- Closed instance of `c8_fetch_failure_aborts`: a timed-out fetch yields
`FetchFailure "timed out"`. -/
theorem c8_fetch_failure_aborts_witness :
    runApp "https://ex.com" (fun _ => Except.error "timed out") Category.links
      = AppResult.fetchFailure "timed out" :=
  (c8_fetch_failure_aborts "https://ex.com" (fun _ => Except.error "timed out")
      "timed out" Category.links Category.tables (by decide) rfl).1

end Scraper
